import Mathlib

/-!
Verification of the iFridge 5-tier recommendation engine
(`backend/app/services/scoring.py`, `backend/app/services/recommendation_engine.py`,
`backend/app/core/config.py`, `backend/app/api/routes/recommendations.py`).

Modelling conventions:
* Python floats and SQL numerics are modelled as exact real numbers (`ℝ`);
  DB quantities and similarity inputs that only ever feed decidable comparisons
  are modelled as `ℚ`/`ℤ` where the code's behaviour is purely arithmetic.
* Calendar dates are modelled as integer day numbers; `expiry - today` is the
  Python `(expiry - today).days`.
* Python dicts are modelled as association lists / `String → Option _`
  functions; `dict.get(k, d)` is `(m k).getD d`.
* Code that can raise an exception is modelled in `Except String`.
* `Python sorted(key=..., reverse=True)` is a stable descending sort; since a
  stable sort's output is uniquely determined, it is modelled by a stable
  insertion sort.
-/

namespace IFridge

/-- List `FLAVOR_AXES` from `scoring.py`: the shared vocabulary of flavor axes. -/
def FLAVOR_AXES : List String := ["sweet", "salty", "sour", "bitter", "umami", "spicy"]

/-- Function `compute_expiry_urgency` from `scoring.py`.
For each recipe ingredient found in the inventory map, the normalized urgency is
`max(0.0, 1.0 - days_left / horizon_days)`; the result is the mean of the
collected urgencies, or `0.0` when none were collected. -/
noncomputable def compute_expiry_urgency (recipe_ingredient_ids : List String)
    (user_inventory : String → Option ℤ) (today : ℤ) (horizon_days : ℝ := 7) : ℝ :=
  let urgencies : List ℝ := recipe_ingredient_ids.filterMap fun ing_id =>
    (user_inventory ing_id).map fun expiry =>
      max 0 (1 - (((expiry - today : ℤ) : ℝ) / horizon_days))
  if urgencies.isEmpty then 0 else urgencies.sum / urgencies.length

/-- Model of `np.linalg.norm` of a vector given as a list: the Euclidean 2-norm. -/
noncomputable def l2norm (v : List ℝ) : ℝ :=
  Real.sqrt (v.map fun x => x ^ 2).sum

/-- Body of `compute_flavor_affinity` once the two six-entry vectors have been
built: `dot / (norm_r * norm_u)` if the product of norms is positive, else `0.5`. -/
noncomputable def cosine_affinity (r_vec u_vec : List ℝ) : ℝ :=
  let dot := (List.zipWith (fun x y => x * y) r_vec u_vec).sum
  let norm := l2norm r_vec * l2norm u_vec
  if norm > 0 then dot / norm else 1 / 2

/-- Function `compute_flavor_affinity` from `scoring.py`: build the two vectors over
`FLAVOR_AXES` with missing entries defaulting to `0.5`, then take
`cosine_affinity`. -/
noncomputable def compute_flavor_affinity
    (recipe_vectors user_profile : String → Option ℝ) : ℝ :=
  cosine_affinity
    (FLAVOR_AXES.map fun axis => (recipe_vectors axis).getD (1 / 2))
    (FLAVOR_AXES.map fun axis => (user_profile axis).getD (1 / 2))

/-- The recommendation-engine weights from `config.py` (`Settings`). -/
structure Settings where
  WEIGHT_EXPIRY : ℝ
  WEIGHT_FLAVOR : ℝ
  WEIGHT_FAMILIAR : ℝ

/-- The default weight values declared in `config.py`. -/
noncomputable def defaultSettings : Settings :=
  { WEIGHT_EXPIRY := 0.45, WEIGHT_FLAVOR := 0.35, WEIGHT_FAMILIAR := 0.20 }

/-- Python `round(x, 3)`: round to 3 decimal places. Tie-breaking at exact
half-thousandths is immaterial to every statement below; we use the
round-half-up convention. -/
noncomputable def round3 (x : ℝ) : ℝ :=
  ((round (1000 * x) : ℤ) : ℝ) / 1000

/-- Function `compute_relevance_score` from `scoring.py`:
`round(min(1.0, max(0.0, w1*expiry + w2*flavor + w3*familiarity)), 3)` with
`familiarity = 1.0` when `is_comfort` else `0.2`. -/
noncomputable def compute_relevance_score (settings : Settings)
    (expiry_urgency flavor_affinity : ℝ) (is_comfort : Bool) : ℝ :=
  let familiarity : ℝ := if is_comfort then 1 else 0.2
  let score := settings.WEIGHT_EXPIRY * expiry_urgency
    + settings.WEIGHT_FLAVOR * flavor_affinity
    + settings.WEIGHT_FAMILIAR * familiarity
  round3 (min 1 (max 0 score))

/-- PostgreSQL `ROUND(x, 2)` on `NUMERIC`: round half away from zero to two
decimal places (used by `TIER_QUERY` for `match_pct`). -/
def pgRound2 (x : ℚ) : ℚ :=
  if 0 ≤ x then ((⌊100 * x + 1 / 2⌋ : ℤ) : ℚ) / 100
  else -(((⌊100 * (-x) + 1 / 2⌋ : ℤ) : ℚ) / 100)

/-- Column `match_pct` as computed by `TIER_QUERY`:
`ROUND(matched::NUMERIC / NULLIF(total, 0), 2)` (rows in `recipe_match` always
have `total ≥ 1`, so the `NULLIF` never fires there). -/
def match_pct (matched total : ℕ) : ℚ :=
  pgRound2 ((matched : ℚ) / (total : ℚ))

/-- The `CASE` expression of `TIER_QUERY` assigning a tier from the rounded
match percentage, the missing count and cook-history membership. -/
def tier_case (pct : ℚ) (missing : ℕ) (is_comfort : Bool) : Option ℕ :=
  if pct = 1 ∧ is_comfort = true then some 1
  else if pct = 1 ∧ is_comfort = false then some 2
  else if (1 ≤ missing ∧ missing ≤ 3) ∧ is_comfort = true then some 3
  else if (1 ≤ missing ∧ missing ≤ 3) ∧ is_comfort = false then some 4
  else none

/-- The tier produced by `TIER_QUERY` for a recipe with `matched` matched and
`total` total non-optional requirements: the `WHERE rm.missing_count <= 3`
filter (modelled as `none` = row absent) followed by the `CASE` expression. -/
def TIER_QUERY_tier (matched total : ℕ) (is_comfort : Bool) : Option ℕ :=
  if total - matched ≤ 3 then tier_case (match_pct matched total) (total - matched) is_comfort
  else none

/-- Tier assignment as the claim states it: the same priority-ordered rules but
on the exact (unrounded) match percentage `matched / total`. -/
def claim_tier (matched total : ℕ) (is_comfort : Bool) : Option ℕ :=
  if (matched : ℚ) / (total : ℚ) = 1 ∧ is_comfort = true then some 1
  else if (matched : ℚ) / (total : ℚ) = 1 ∧ is_comfort = false then some 2
  else if (1 ≤ total - matched ∧ total - matched ≤ 3) ∧ is_comfort = true then some 3
  else if (1 ≤ total - matched ∧ total - matched ≤ 3) ∧ is_comfort = false then some 4
  else none

/-! Reference definitions written from the spec's own words, to be compared with
the definitions above. -/

/-- Reference definition of expiry urgency following the spec text (section 4.2)
literally: per matched ingredient `urgency_i = clamp(1 - days_left/H, 0, 1)`,
result the mean over matched ingredients, `0.0` when none matched. -/
noncomputable def spec_expiry_urgency_clamped (recipe_ingredient_ids : List String)
    (user_inventory : String → Option ℤ) (today : ℤ) (H : ℝ) : ℝ :=
  let days : List ℝ := (recipe_ingredient_ids.filterMap user_inventory).map
    fun expiry => ((expiry - today : ℤ) : ℝ)
  let urgencies := days.map fun d => max 0 (min 1 (1 - d / H))
  if urgencies.isEmpty then 0 else urgencies.sum / urgencies.length

/-- Expiry urgency as the amended claim states it: identical to the spec's
reference definition except that `urgency_i = max(0, 1 - days_left/H)` is only
clamped from below (an overdue ingredient contributes more than `1`). -/
noncomputable def spec_expiry_urgency_amended (recipe_ingredient_ids : List String)
    (user_inventory : String → Option ℤ) (today : ℤ) (H : ℝ) : ℝ :=
  let days : List ℝ := (recipe_ingredient_ids.filterMap user_inventory).map
    fun expiry => ((expiry - today : ℤ) : ℝ)
  let urgencies := days.map fun d => max 0 (1 - d / H)
  if urgencies.isEmpty then 0 else urgencies.sum / urgencies.length

/-- Relevance score written from the spec's words (section 4.2):
`round(clamp(w_expiry*expiry + w_flavor*flavor + w_familiar*familiarity, 0, 1), 3)`
with the default weights `0.45 / 0.35 / 0.20` and `familiarity` equal to `1.0`
for cook-history members, else `0.2`. -/
noncomputable def spec_relevance_score
    (expiry_urgency flavor_affinity : ℝ) (is_comfort : Bool) : ℝ :=
  let familiarity : ℝ := if is_comfort then 1 else 0.2
  round3 (max 0 (min 1
    (0.45 * expiry_urgency + 0.35 * flavor_affinity + 0.20 * familiarity)))

/-- The six-axis vector a flavor dictionary denotes, in the fixed axis order of
`FLAVOR_AXES`, with missing entries defaulting to `0.5`. -/
noncomputable def vecOf (d : String → Option ℝ) : Fin 6 → ℝ :=
  fun i => (d (FLAVOR_AXES.getD (i : ℕ) "")).getD (1 / 2)

/-- Cosine similarity of two six-axis vectors, written from the spec's words:
undefined (zero-magnitude) similarity is treated as the neutral `0.5`. -/
noncomputable def spec_cosine_similarity (v w : Fin 6 → ℝ) : ℝ :=
  if Real.sqrt (∑ i, v i ^ 2) * Real.sqrt (∑ i, w i ^ 2) = 0 then 1 / 2
  else (∑ i, v i * w i) / (Real.sqrt (∑ i, v i ^ 2) * Real.sqrt (∑ i, w i ^ 2))

/-! The recommendation engine (`recommendation_engine.py`), modelled over a
snapshot of everything `RecommendationEngine.generate` reads from the database.
Presentation-only pass-through columns (`cuisine`, `prep_time_minutes`,
`image_url`) are omitted; every field the claims mention is kept. -/

/-- A value stored under a flavor-vector key: a number, or malformed
(non-numeric) content. -/
inductive Fval where
  | num (x : ℝ)
  | strv (s : String)

/-- A row of the `inventory_items` table. -/
structure InvRow where
  ingredient_id : String
  computed_expiry : ℤ
  quantity : ℚ
  unit : String

/-- A row returned by `TIER_QUERY` as consumed by `generate`. -/
structure TierRow where
  recipe_id : String
  title : String
  flavor_vectors : Option (List (String × Fval))
  match_pct : ℝ
  missing_names : Option (List String)
  is_comfort : Bool
  tier : Option ℕ

/-- A row of `user_flavor_profile`. -/
structure FlavorRow where
  sweet : ℝ
  salty : ℝ
  sour : ℝ
  bitter : ℝ
  umami : ℝ
  spicy : ℝ

/-- A row returned by the `search_recipes_by_flavor` RPC (the semantic fallback
adapter). -/
structure FallbackRow where
  recipe_id : String
  title : String
  similarity : Option ℝ

/-- The `ScoredRecipe` model (`models/recommendation.py`). -/
structure ScoredRecipe where
  recipe_id : String
  title : String
  tier : ℕ
  relevance_score : ℝ
  match_percentage : ℝ
  missing_ingredients : List String
  expiry_urgency : ℝ
  flavor_affinity : ℝ
  is_comfort : Bool

/-- The `UrgentItem` model (`models/recommendation.py`). -/
structure UrgentItem where
  ingredient_name : String
  days_remaining : ℤ
  quantity : ℚ
  unit : String

/-- The `tiers` dictionary with keys 1 through 5, each starting empty. -/
structure Buckets where
  t1 : List ScoredRecipe := []
  t2 : List ScoredRecipe := []
  t3 : List ScoredRecipe := []
  t4 : List ScoredRecipe := []
  t5 : List ScoredRecipe := []

/-- The `RecommendationResponse` model (without the wall-clock timestamp). -/
structure Response where
  user_id : String
  tiers : Buckets
  urgent_items : List UrgentItem
  total_recipes : ℕ

/-- Everything `generate` reads from the database, plus the configured
weights: the user's flavor-profile row, the raw `inventory_items` rows, the
`ingredients.display_name_en` lookup, the `TIER_QUERY` result rows, the
per-recipe non-optional ingredient-id lists, and the fallback-adapter RPC. -/
structure Snapshot where
  profileRow : Option FlavorRow
  inventory : List InvRow
  names : String → Option String
  tierRows : List TierRow
  recipeIngredients : String → List String
  adapter : List ℝ → ℕ → Except String (List FallbackRow)
  settings : Settings

/-- Method `_get_flavor_profile`: the user's profile as a six-key dictionary, or the
neutral all-`0.5` dictionary when the row is absent. -/
noncomputable def mkProfileDict (row : Option FlavorRow) : String → Option ℝ :=
  match row with
  | some p => fun a =>
      ([("sweet", p.sweet), ("salty", p.salty), ("sour", p.sour),
        ("bitter", p.bitter), ("umami", p.umami), ("spicy", p.spicy)]).lookup a
  | none => fun a =>
      ([("sweet", (1 : ℝ) / 2), ("salty", 1 / 2), ("sour", 1 / 2),
        ("bitter", 1 / 2), ("umami", 1 / 2), ("spicy", 1 / 2)]).lookup a

/-- Method `_get_inventory_expiry_map`: keep rows with `computed_expiry >= today` and
`quantity > 0`, then fold them into a map keeping the soonest expiry per
ingredient. -/
def buildExpiryMap (today : ℤ) (inventory : List InvRow) : String → Option ℤ :=
  (inventory.filter fun r => decide (today ≤ r.computed_expiry ∧ 0 < r.quantity)).foldl
    (fun m r ing =>
      if ing = r.ingredient_id then
        match m r.ingredient_id with
        | none => some r.computed_expiry
        | some e => if r.computed_expiry < e then some r.computed_expiry else some e
      else m ing)
    (fun _ => none)

/-- Method `_get_urgent_items` exactly as coded: the query filters
`computed_expiry >= today`, `computed_expiry <= today` (the upper bound in the
source is `date.today()` with no two-day offset) and `quantity > 0`, then maps
each row to an `UrgentItem`. -/
def get_urgent_items (today : ℤ) (inventory : List InvRow)
    (names : String → Option String) : List UrgentItem :=
  (inventory.filter fun r =>
      decide (today ≤ r.computed_expiry ∧ r.computed_expiry ≤ today ∧ 0 < r.quantity)).map
    fun r =>
      { ingredient_name := (names r.ingredient_id).getD "Unknown"
        days_remaining := r.computed_expiry - today
        quantity := r.quantity
        unit := r.unit }

/-- Urgent items as the claim and spec state them: valid items
(`quantity > 0`, not expired) whose expiry is within two days of today. -/
def spec_urgent_items (today : ℤ) (inventory : List InvRow)
    (names : String → Option String) : List UrgentItem :=
  (inventory.filter fun r =>
      decide (today ≤ r.computed_expiry ∧ r.computed_expiry ≤ today + 2 ∧ 0 < r.quantity)).map
    fun r =>
      { ingredient_name := (names r.ingredient_id).getD "Unknown"
        days_remaining := r.computed_expiry - today
        quantity := r.quantity
        unit := r.unit }

/-- Reading one axis of a recipe's flavor dictionary for `np.array`: a
non-numeric value makes the subsequent `np.dot` raise, a missing axis defaults
to `0.5`. -/
noncomputable def axis_value (d : List (String × Fval)) (axis : String) : Except String ℝ :=
  match d.lookup axis with
  | some (Fval.strv s) => Except.error ("TypeError: non-numeric flavor value " ++ s)
  | some (Fval.num x) => Except.ok x
  | none => Except.ok (1 / 2)

/-- Engine-side `compute_flavor_affinity` as invoked on a raw
`flavor_vectors` dictionary: raises on a non-numeric axis value, otherwise
computes the cosine affinity. -/
noncomputable def flavor_affinityE (d : List (String × Fval))
    (user_profile : String → Option ℝ) : Except String ℝ := do
  let r_vec ← FLAVOR_AXES.mapM (axis_value d)
  pure (cosine_affinity r_vec (FLAVOR_AXES.map fun axis => (user_profile axis).getD (1 / 2)))

/-- Appending a scored recipe to `tiers[tier_num]`; a tier number outside the
dictionary's keys `1..5` would be a Python `KeyError`. -/
def Buckets.push (tier_num : ℕ) (r : ScoredRecipe) (b : Buckets) : Except String Buckets :=
  match tier_num with
  | 1 => Except.ok { b with t1 := b.t1 ++ [r] }
  | 2 => Except.ok { b with t2 := b.t2 ++ [r] }
  | 3 => Except.ok { b with t3 := b.t3 ++ [r] }
  | 4 => Except.ok { b with t4 := b.t4 ++ [r] }
  | 5 => Except.ok { b with t5 := b.t5 ++ [r] }
  | _ => Except.error "KeyError"

/-- The body of the scoring loop in `generate` (step 3): skip rows with a null
tier, compute the three sub-scores, build the `ScoredRecipe`, and append it to
its tier bucket. -/
noncomputable def score_row (snap : Snapshot) (inventory_expiry : String → Option ℤ)
    (profile : String → Option ℝ) (today : ℤ) (b : Buckets) (row : TierRow) :
    Except String Buckets :=
  match row.tier with
  | none => Except.ok b
  | some tier_num => do
    let recipe_ing_ids := snap.recipeIngredients row.recipe_id
    let expiry_urg := compute_expiry_urgency recipe_ing_ids inventory_expiry today
    let flavor_aff ← flavor_affinityE (row.flavor_vectors.getD []) profile
    let relevance := compute_relevance_score snap.settings expiry_urg flavor_aff row.is_comfort
    Buckets.push tier_num
      { recipe_id := row.recipe_id
        title := row.title
        tier := tier_num
        relevance_score := relevance
        match_percentage := row.match_pct
        missing_ingredients := row.missing_names.getD []
        expiry_urgency := expiry_urg
        flavor_affinity := flavor_aff
        is_comfort := row.is_comfort } b

/-- Stable insertion (descending by `relevance_score`): an element is placed
before the first element with a strictly smaller score, so equal scores keep
their original order — the unique output of Python's stable
`sorted(key=..., reverse=True)`. -/
noncomputable def insert_desc (r : ScoredRecipe) : List ScoredRecipe → List ScoredRecipe
  | [] => [r]
  | x :: xs =>
    if x.relevance_score < r.relevance_score then r :: x :: xs
    else x :: insert_desc r xs

/-- Stable descending sort by `relevance_score`. -/
noncomputable def sort_desc (l : List ScoredRecipe) : List ScoredRecipe :=
  l.foldl (fun acc r => insert_desc r acc) []

/-- Step 4 of `generate` for one bucket: sort descending by relevance and cap
at `max_per_tier`. -/
noncomputable def sort_and_cap (max_per_tier : ℕ) (l : List ScoredRecipe) : List ScoredRecipe :=
  (sort_desc l).take max_per_tier

/-- Step 4 of `generate`: sort and cap every one of the five buckets. -/
noncomputable def sort_buckets (max_per_tier : ℕ) (b : Buckets) : Buckets :=
  { t1 := sort_and_cap max_per_tier b.t1
    t2 := sort_and_cap max_per_tier b.t2
    t3 := sort_and_cap max_per_tier b.t3
    t4 := sort_and_cap max_per_tier b.t4
    t5 := sort_and_cap max_per_tier b.t5 }

/-- Mapping step of `_tier5_search`: map one fallback row into a tier-5 `ScoredRecipe`
(`relevance_score` and `flavor_affinity` are `round(similarity, 3)` with the
similarity defaulting to `0.5`; `expiry_urgency` and `missing_ingredients` take
the model defaults `0.0` and `[]`). -/
noncomputable def map_fallback_row (row : FallbackRow) : ScoredRecipe :=
  { recipe_id := row.recipe_id
    title := row.title
    tier := 5
    relevance_score := round3 (row.similarity.getD (1 / 2))
    match_percentage := 0
    missing_ingredients := []
    expiry_urgency := 0
    flavor_affinity := round3 (row.similarity.getD (1 / 2))
    is_comfort := false }

/-- Method `_tier5_search`: build the six-axis query vector from the profile, call the
fallback RPC (an RPC failure propagates), and map the rows. -/
noncomputable def tier5_search (snap : Snapshot) (profile : String → Option ℝ)
    (limit : ℕ) : Except String (List ScoredRecipe) := do
  let query_vector := FLAVOR_AXES.map fun axis => (profile axis).getD (1 / 2)
  let result ← snap.adapter query_vector limit
  pure (result.map map_fallback_row)

/-- Method `RecommendationEngine.generate`: load the user context, score every
`TIER_QUERY` row, sort and cap the buckets, run the tier-5 fallback when
`include_tier5` is set and tiers 1–4 hold fewer than 5 recipes together, and
assemble the response. Exceptions anywhere abort the whole call (the route in
`recommendations.py` maps them to an HTTP 500). -/
noncomputable def generate (snap : Snapshot) (today : ℤ) (user_id : String)
    (max_per_tier : ℕ) (include_tier5 : Bool) : Except String Response := do
  let profile := mkProfileDict snap.profileRow
  let inventory_expiry := buildExpiryMap today snap.inventory
  let urgent_items := get_urgent_items today snap.inventory snap.names
  let buckets ← snap.tierRows.foldlM (score_row snap inventory_expiry profile today) {}
  let sorted := sort_buckets max_per_tier buckets
  let total_1_to_4 :=
    sorted.t1.length + sorted.t2.length + sorted.t3.length + sorted.t4.length
  let final ← if include_tier5 = true ∧ total_1_to_4 < 5 then do
      let t5 ← tier5_search snap profile max_per_tier
      pure { sorted with t5 := t5 }
    else pure sorted
  Except.ok
    { user_id := user_id
      tiers := final
      urgent_items := urgent_items
      total_recipes := final.t1.length + final.t2.length + final.t3.length
        + final.t4.length + final.t5.length }

/-! Concrete inputs used by the witnesses, counterexamples and failing-input
evaluations below. -/

/-- An inventory map holding one ingredient that expired a week ago. -/
def inv_overdue : String → Option ℤ :=
  fun a => if a = "egg" then some (-7) else none

/-- An inventory map holding one ingredient that expired three days ago. -/
def inv_overdue3 : String → Option ℤ :=
  fun a => if a = "butter" then some (-3) else none

/-- An inventory map holding one ingredient expiring in three days. -/
def inv_fresh : String → Option ℤ :=
  fun a => if a = "milk" then some 3 else none

/-- A recipe flavor dictionary: the unit vector along the `sweet` axis. -/
noncomputable def rv_sweet : String → Option ℝ :=
  fun a => if a = "sweet" then some 1 else some 0

/-- A user flavor dictionary: minus the unit vector along the `sweet` axis. -/
noncomputable def up_antisweet : String → Option ℝ :=
  fun a => if a = "sweet" then some (-1) else some 0

/-- A well-formed tier-query row (tier 2, one numeric flavor axis). -/
noncomputable def rowGood : TierRow :=
  { recipe_id := "r-good"
    title := "Omelette"
    flavor_vectors := some [("sweet", Fval.num (3 / 10))]
    match_pct := 1
    missing_names := none
    is_comfort := false
    tier := some 2 }

/-- A malformed tier-query row: its flavor dictionary holds the non-numeric
string `"hot"` under the `sweet` axis. -/
noncomputable def rowBad : TierRow :=
  { recipe_id := "r-bad"
    title := "Mystery"
    flavor_vectors := some [("sweet", Fval.strv "hot")]
    match_pct := 1
    missing_names := none
    is_comfort := true
    tier := some 1 }

/-- Snapshot with one well-formed and one malformed candidate recipe. -/
noncomputable def snapMalformed : Snapshot :=
  { profileRow := none
    inventory := []
    names := fun _ => none
    tierRows := [rowGood, rowBad]
    recipeIngredients := fun _ => []
    adapter := fun _ _ => Except.ok []
    settings := defaultSettings }

/-- Snapshot with no tier 1–4 candidates and an unavailable fallback adapter. -/
noncomputable def snapAdapterDown : Snapshot :=
  { profileRow := none
    inventory := []
    names := fun _ => none
    tierRows := []
    recipeIngredients := fun _ => []
    adapter := fun _ _ => Except.error "adapter unavailable"
    settings := defaultSettings }

/-- Snapshot with no tier 1–4 candidates and an adapter reporting one result
whose similarity `1/3` has no finite 3-decimal representation. -/
noncomputable def snapThirds : Snapshot :=
  { profileRow := none
    inventory := []
    names := fun _ => none
    tierRows := []
    recipeIngredients := fun _ => []
    adapter := fun _ _ => Except.ok [{ recipe_id := "r1", title := "Soup", similarity := some (1 / 3) }]
    settings := defaultSettings }

/-- The response `generate` produces on `snapThirds`. -/
noncomputable def respThirds : Response :=
  { user_id := "u"
    tiers := { t5 := [map_fallback_row { recipe_id := "r1", title := "Soup", similarity := some (1 / 3) }] }
    urgent_items := []
    total_recipes := 1 }

/-- Snapshot with no tier 1–4 candidates and an adapter reporting one result
with similarity `0.7`. -/
noncomputable def snapStew : Snapshot :=
  { profileRow := none
    inventory := []
    names := fun _ => none
    tierRows := []
    recipeIngredients := fun _ => []
    adapter := fun _ _ => Except.ok [{ recipe_id := "r9", title := "Stew", similarity := some (7 / 10) }]
    settings := defaultSettings }

/-- An inventory with a single valid item expiring tomorrow. -/
def invTomorrow : List InvRow :=
  [{ ingredient_id := "milk", computed_expiry := 1, quantity := 1, unit := "l" }]

/-- Ingredient display names for `invTomorrow`. -/
def namesMilk : String → Option String :=
  fun a => if a = "milk" then some "Milk" else none

/-! Helper lemmas (shared; not tied to a single claim). -/

theorem match_pct_self {total : ℕ} (h : 0 < total) : match_pct total total = 1 := by
  unfold match_pct pgRound2
  rw [div_self (by exact_mod_cast h.ne' : (total : ℚ) ≠ 0)]
  norm_num

theorem missing_zero_of_le {matched total : ℕ} (hle : matched ≤ total)
    (h : total - matched = 0) : matched = total :=
  le_antisymm hle (Nat.le_of_sub_eq_zero h)

/-! Claim C1: tier assignment. -/

/-- Claim C1 (counterexample): a recipe with 200 of 201 non-optional
requirements matched has exact match percentage `200/201 ≠ 1` and
`missing_count = 1`, so the claim mandates tier 4 (not comfort); but the
engine's query rounds `match_pct` to two decimals, getting `1.00`, and assigns
tier 2. -/
theorem c1_rounding_counterexample :
    TIER_QUERY_tier 200 201 false = some 2
    ∧ claim_tier 200 201 false = some 4
    ∧ (200 : ℚ) / 201 ≠ 1 ∧ 1 ≤ 201 - 200 ∧ 201 - 200 ≤ 3 := by
  refine ⟨?_, ?_, ?_, by norm_num, by norm_num⟩
  · unfold TIER_QUERY_tier tier_case match_pct pgRound2
    norm_num
  · unfold claim_tier
    norm_num
  · norm_num

/-- Claim C1 (amended): tier assignment is the stated total, mutually exclusive
priority-ordered function of `(match_percentage, missing_count, is_comfort)`
once `match_percentage` is taken to be `matched/total` rounded (half away from
zero) to two decimals, as the engine's query computes it: rounded percentage
`1.00` with `missing_count ≤ 3` gives tier 1/2 by comfort; otherwise
`missing_count ∈ [1,3]` gives tier 3/4 by comfort; `missing_count > 3` is
excluded; and exactly the recipes with `missing_count > 3` are excluded. -/
theorem c1_tier_assignment_rounded (matched total : ℕ) (c : Bool)
    (hle : matched ≤ total) (hpos : 0 < total) :
    (match_pct matched total = 1 → total - matched ≤ 3 →
      TIER_QUERY_tier matched total c = some (if c then 1 else 2))
    ∧ (match_pct matched total ≠ 1 → 1 ≤ total - matched → total - matched ≤ 3 →
      TIER_QUERY_tier matched total c = some (if c then 3 else 4))
    ∧ (3 < total - matched → TIER_QUERY_tier matched total c = none)
    ∧ (TIER_QUERY_tier matched total c = none ↔ 3 < total - matched) := by
  have hmiss : total - matched = 0 → match_pct matched total = 1 := by
    intro h0
    rw [missing_zero_of_le hle h0]
    exact match_pct_self hpos
  refine ⟨?_, ?_, ?_, ?_⟩
  · intro hpct hle3
    unfold TIER_QUERY_tier tier_case
    rw [if_pos hle3]
    cases c with
    | false => simp [hpct]
    | true => simp [hpct]
  · intro hpct h1 h3
    unfold TIER_QUERY_tier tier_case
    rw [if_pos h3]
    cases c with
    | false => simp [hpct, h1, h3]
    | true => simp [hpct, h1, h3]
  · intro h3
    unfold TIER_QUERY_tier
    rw [if_neg (by omega)]
  · constructor
    · intro hnone
      by_contra h3
      push_neg at h3
      rcases Nat.eq_zero_or_pos (total - matched) with h0 | h1
      · have hpct := hmiss h0
        unfold TIER_QUERY_tier tier_case at hnone
        rw [if_pos (by omega)] at hnone
        cases c <;> simp [hpct] at hnone
      · unfold TIER_QUERY_tier tier_case at hnone
        rw [if_pos (by omega)] at hnone
        by_cases hpct : match_pct matched total = 1 <;>
          cases c <;> simp [hpct, h1, h3] at hnone <;> omega
    · intro h3
      unfold TIER_QUERY_tier
      rw [if_neg (by omega)]

/-- Claim C1 (witness): at `matched = 2`, `total = 3`, comfort: rounded
percentage `0.67 ≠ 1`, one missing item, tier 3. -/
theorem c1_tier_assignment_rounded_witness :
    (2 ≤ 3 ∧ 0 < 3)
    ∧ (match_pct 2 3 ≠ 1 → 1 ≤ 3 - 2 → 3 - 2 ≤ 3 →
        TIER_QUERY_tier 2 3 true = some (if true then 3 else 4)) :=
  ⟨⟨by norm_num, by norm_num⟩,
    (c1_tier_assignment_rounded 2 3 true (by norm_num) (by norm_num)).2.1⟩

/-! Rounding and clamping helper lemmas. -/

theorem round3_mono {x y : ℝ} (h : x ≤ y) : round3 x ≤ round3 y := by
  unfold round3
  have hr : round (1000 * x) ≤ round (1000 * y) := by
    rw [round_eq, round_eq]
    exact Int.floor_le_floor (by linarith)
  have hc : ((round (1000 * x) : ℤ) : ℝ) ≤ ((round (1000 * y) : ℤ) : ℝ) := by
    exact_mod_cast hr
  linarith

theorem round3_zero : round3 0 = 0 := by
  unfold round3
  simp

theorem round3_one : round3 1 = 1 := by
  unfold round3
  rw [mul_one, show ((1000 : ℝ)) = ((1000 : ℤ) : ℝ) by norm_num, round_intCast]
  norm_num

theorem clamp_minmax (s : ℝ) : min 1 (max 0 s) = max 0 (min 1 s) := by
  rw [max_min_distrib_left, max_eq_right zero_le_one]

/-! Claim C3: expiry urgency against its reference definition. -/

/-- Claim C3 (counterexample): an ingredient three days overdue contributes
`1 + 3/7` to the code's urgency (only clamped from below), so the average is
`10/7`, while the claimed reference definition clamps it to `1.0`. -/
theorem c3_overdue_counterexample :
    compute_expiry_urgency ["butter"] inv_overdue3 0 7 = 10 / 7
    ∧ spec_expiry_urgency_clamped ["butter"] inv_overdue3 0 7 = 1
    ∧ ((10 : ℝ) / 7 ≠ 1) := by
  refine ⟨?_, ?_, by norm_num⟩
  · unfold compute_expiry_urgency inv_overdue3
    norm_num [List.filterMap_cons, List.filterMap_nil]
  · unfold spec_expiry_urgency_clamped inv_overdue3
    norm_num [List.filterMap_cons, List.filterMap_nil]

/-- Claim C3 (amended): `compute_expiry_urgency` equals the reference
definition with `urgency_i = max(0, 1 - days_left/H)` — clamped from below
only, so expiring today gives exactly `1.0`, `H` or more days out gives `0.0`,
but an overdue ingredient contributes more than `1.0`; absent ingredients are
skipped; the result is the mean over matched ingredients and `0.0` when none
matched. -/
theorem c3_urgency_reference (ids : List String) (inv : String → Option ℤ)
    (today : ℤ) (H : ℝ) :
    compute_expiry_urgency ids inv today H
      = spec_expiry_urgency_amended ids inv today H := by
  unfold compute_expiry_urgency spec_expiry_urgency_amended
  simp only [List.map_map, List.map_filterMap, Option.map_map, Function.comp_def]

/-! Claim C4: the composite relevance formula. -/

/-- Claim C4 (confirmed): `compute_relevance_score` with the configured default
weights equals `round(clamp(0.45*expiry + 0.35*flavor + 0.20*familiarity, 0, 1), 3)`
with `familiarity = 1.0` for comfort recipes and `0.2` otherwise, and the
defaults in `config.py` are `0.45 / 0.35 / 0.20`. -/
theorem c4_relevance_formula :
    (∀ u f : ℝ, ∀ c : Bool,
      compute_relevance_score defaultSettings u f c = spec_relevance_score u f c)
    ∧ defaultSettings.WEIGHT_EXPIRY = 0.45
    ∧ defaultSettings.WEIGHT_FLAVOR = 0.35
    ∧ defaultSettings.WEIGHT_FAMILIAR = 0.20 := by
  refine ⟨fun u f c => ?_, rfl, rfl, rfl⟩
  unfold compute_relevance_score spec_relevance_score defaultSettings
  simp only [clamp_minmax]

/-! Claim C10: monotonicity of the relevance score. -/

/-- Claim C10 (confirmed): for non-negative weights, the relevance score is
monotone non-decreasing in each sub-score, and the comfort value is at least
the non-comfort value. -/
theorem c10_relevance_monotonicity (s : Settings)
    (hw1 : 0 ≤ s.WEIGHT_EXPIRY) (hw2 : 0 ≤ s.WEIGHT_FLAVOR)
    (hw3 : 0 ≤ s.WEIGHT_FAMILIAR) :
    (∀ u u' f : ℝ, ∀ c : Bool, u ≤ u' →
      compute_relevance_score s u f c ≤ compute_relevance_score s u' f c)
    ∧ (∀ u f f' : ℝ, ∀ c : Bool, f ≤ f' →
      compute_relevance_score s u f c ≤ compute_relevance_score s u f' c)
    ∧ (∀ u f : ℝ,
      compute_relevance_score s u f false ≤ compute_relevance_score s u f true) := by
  have key : ∀ a b : ℝ, a ≤ b →
      round3 (min 1 (max 0 a)) ≤ round3 (min 1 (max 0 b)) := fun a b hab =>
    round3_mono (min_le_min le_rfl (max_le_max le_rfl hab))
  refine ⟨fun u u' f c h => ?_, fun u f f' c h => ?_, fun u f => ?_⟩
  · unfold compute_relevance_score
    apply key
    have := mul_le_mul_of_nonneg_left h hw1
    linarith
  · unfold compute_relevance_score
    apply key
    have := mul_le_mul_of_nonneg_left h hw2
    linarith
  · unfold compute_relevance_score
    apply key
    have := mul_le_mul_of_nonneg_left (show (0.2 : ℝ) ≤ 1 by norm_num) hw3
    simp only [Bool.false_eq_true, if_false, if_true]
    linarith

/-- Claim C10 (witness): with the default weights, raising the expiry urgency
from `0` to `1` does not lower the score. -/
theorem c10_relevance_monotonicity_witness :
    ((0 : ℝ) ≤ defaultSettings.WEIGHT_EXPIRY
      ∧ (0 : ℝ) ≤ defaultSettings.WEIGHT_FLAVOR
      ∧ (0 : ℝ) ≤ defaultSettings.WEIGHT_FAMILIAR)
    ∧ compute_relevance_score defaultSettings 0 (1 / 2) true
        ≤ compute_relevance_score defaultSettings 1 (1 / 2) true :=
  ⟨⟨by norm_num [defaultSettings], by norm_num [defaultSettings],
      by norm_num [defaultSettings]⟩,
    (c10_relevance_monotonicity defaultSettings (by norm_num [defaultSettings])
      (by norm_num [defaultSettings]) (by norm_num [defaultSettings])).1
      0 1 (1 / 2) true zero_le_one⟩

/-! Cosine-affinity helper lemmas. -/

theorem cosine_eq_spec (v w : Fin 6 → ℝ) :
    cosine_affinity [v 0, v 1, v 2, v 3, v 4, v 5] [w 0, w 1, w 2, w 3, w 4, w 5]
      = spec_cosine_similarity v w := by
  unfold cosine_affinity spec_cosine_similarity l2norm
  simp only [List.zipWith_cons_cons, List.zipWith_nil_left, List.map_cons,
    List.map_nil, List.sum_cons, List.sum_nil, Fin.sum_univ_six]
  have hd : v 0 * w 0 + (v 1 * w 1 + (v 2 * w 2 + (v 3 * w 3 + (v 4 * w 4 + (v 5 * w 5 + 0)))))
      = v 0 * w 0 + v 1 * w 1 + v 2 * w 2 + v 3 * w 3 + v 4 * w 4 + v 5 * w 5 := by ring
  have hv : v 0 ^ 2 + (v 1 ^ 2 + (v 2 ^ 2 + (v 3 ^ 2 + (v 4 ^ 2 + (v 5 ^ 2 + 0)))))
      = v 0 ^ 2 + v 1 ^ 2 + v 2 ^ 2 + v 3 ^ 2 + v 4 ^ 2 + v 5 ^ 2 := by ring
  have hw : w 0 ^ 2 + (w 1 ^ 2 + (w 2 ^ 2 + (w 3 ^ 2 + (w 4 ^ 2 + (w 5 ^ 2 + 0)))))
      = w 0 ^ 2 + w 1 ^ 2 + w 2 ^ 2 + w 3 ^ 2 + w 4 ^ 2 + w 5 ^ 2 := by ring
  rw [hd, hv, hw]
  have hN : 0 ≤ Real.sqrt (v 0 ^ 2 + v 1 ^ 2 + v 2 ^ 2 + v 3 ^ 2 + v 4 ^ 2 + v 5 ^ 2)
      * Real.sqrt (w 0 ^ 2 + w 1 ^ 2 + w 2 ^ 2 + w 3 ^ 2 + w 4 ^ 2 + w 5 ^ 2) :=
    mul_nonneg (Real.sqrt_nonneg _) (Real.sqrt_nonneg _)
  rcases eq_or_lt_of_le hN with h | h
  · rw [if_neg (by rw [← h]; exact lt_irrefl 0), if_pos h.symm]
  · rw [if_pos h, if_neg (ne_of_gt h)]

theorem compute_flavor_affinity_eq_spec (rv up : String → Option ℝ) :
    compute_flavor_affinity rv up = spec_cosine_similarity (vecOf rv) (vecOf up) :=
  cosine_eq_spec (vecOf rv) (vecOf up)

theorem spec_cosine_similarity_bounds (v w : Fin 6 → ℝ)
    (hv : ∀ i, 0 ≤ v i) (hw : ∀ i, 0 ≤ w i) :
    0 ≤ spec_cosine_similarity v w ∧ spec_cosine_similarity v w ≤ 1 := by
  unfold spec_cosine_similarity
  by_cases h : Real.sqrt (∑ i, v i ^ 2) * Real.sqrt (∑ i, w i ^ 2) = 0
  · rw [if_pos h]
    norm_num
  · rw [if_neg h]
    have hN0 : 0 ≤ Real.sqrt (∑ i, v i ^ 2) * Real.sqrt (∑ i, w i ^ 2) :=
      mul_nonneg (Real.sqrt_nonneg _) (Real.sqrt_nonneg _)
    have hNpos : 0 < Real.sqrt (∑ i, v i ^ 2) * Real.sqrt (∑ i, w i ^ 2) :=
      lt_of_le_of_ne hN0 (Ne.symm h)
    have hdot0 : 0 ≤ ∑ i, v i * w i :=
      Finset.sum_nonneg fun i _ => mul_nonneg (hv i) (hw i)
    have hcs : (∑ i, v i * w i)
        ≤ Real.sqrt (∑ i, v i ^ 2) * Real.sqrt (∑ i, w i ^ 2) :=
      Real.sum_mul_le_sqrt_mul_sqrt Finset.univ v w
    exact ⟨div_nonneg hdot0 hN0, (div_le_one hNpos).mpr hcs⟩

theorem getD_half_nonneg (d : String → Option ℝ)
    (hd : ∀ a x, d a = some x → 0 ≤ x) (a : String) : 0 ≤ (d a).getD (1 / 2) := by
  cases h : d a with
  | none => norm_num
  | some x => simpa using hd a x h

theorem list_mean_mem_unit (L : List ℝ) (h : ∀ x ∈ L, 0 ≤ x ∧ x ≤ 1) :
    0 ≤ (if L.isEmpty then (0 : ℝ) else L.sum / L.length)
    ∧ (if L.isEmpty then (0 : ℝ) else L.sum / L.length) ≤ 1 := by
  cases hL : L.isEmpty with
  | true => simp [hL]
  | false =>
    have hne : L ≠ [] := fun h' => by simp [h'] at hL
    have hlen : 0 < (L.length : ℝ) := by exact_mod_cast List.length_pos.mpr hne
    rw [if_neg (by simp [hL])]
    constructor
    · exact div_nonneg (List.sum_nonneg fun x hx => (h x hx).1) hlen.le
    · rw [div_le_one hlen]
      calc L.sum ≤ L.length • (1 : ℝ) := List.sum_le_card_nsmul L 1 fun x hx => (h x hx).2
        _ = L.length := by simp

/-! Claim C2: range of the three sub-scores. -/

/-- Claim C2 (counterexample): with an inventory expiry a week in the past the
expiry urgency is `2 > 1` (the code only clamps from below), and with a
negative flavor component the affinity is `-1 < 0`; neither output stays in
`[0,1]` for arbitrary inputs. -/
theorem c2_out_of_range_counterexample :
    1 < compute_expiry_urgency ["egg"] inv_overdue 0 7
    ∧ compute_flavor_affinity rv_sweet up_antisweet < 0 := by
  constructor
  · unfold compute_expiry_urgency inv_overdue
    norm_num [List.filterMap_cons, List.filterMap_nil]
  · show cosine_affinity [(1 : ℝ), 0, 0, 0, 0, 0] [(-1 : ℝ), 0, 0, 0, 0, 0] < 0
    unfold cosine_affinity l2norm
    norm_num [List.zipWith_cons_cons, List.zipWith_nil_left, Real.sqrt_one]

/-- Claim C2 (amended): `compute_relevance_score` always lies in `[0,1]`;
`compute_expiry_urgency` lies in `[0,1]` whenever the horizon is positive and
no inventory expiry date is in the past (which the engine's inventory query
guarantees); `compute_flavor_affinity` lies in `[0,1]` whenever all supplied
flavor components are non-negative. -/
theorem c2_bounded_outputs :
    (∀ (ids : List String) (inv : String → Option ℤ) (today : ℤ) (H : ℝ),
      0 < H → (∀ i e, inv i = some e → today ≤ e) →
      0 ≤ compute_expiry_urgency ids inv today H
        ∧ compute_expiry_urgency ids inv today H ≤ 1)
    ∧ (∀ rv up : String → Option ℝ,
      (∀ a x, rv a = some x → 0 ≤ x) → (∀ a x, up a = some x → 0 ≤ x) →
      0 ≤ compute_flavor_affinity rv up ∧ compute_flavor_affinity rv up ≤ 1)
    ∧ (∀ (s : Settings) (u f : ℝ) (c : Bool),
      0 ≤ compute_relevance_score s u f c ∧ compute_relevance_score s u f c ≤ 1) := by
  refine ⟨?_, ?_, ?_⟩
  · intro ids inv today H hH hfresh
    have hmem : ∀ x ∈ ids.filterMap fun ing_id =>
        (inv ing_id).map fun expiry =>
          max 0 (1 - (((expiry - today : ℤ) : ℝ) / H)), 0 ≤ x ∧ x ≤ 1 := by
      intro x hx
      rw [List.mem_filterMap] at hx
      obtain ⟨i, _, hfi⟩ := hx
      rw [Option.map_eq_some'] at hfi
      obtain ⟨e, he, hx'⟩ := hfi
      subst hx'
      have hd : (0 : ℝ) ≤ ((e - today : ℤ) : ℝ) := by
        have := hfresh i e he
        exact_mod_cast Int.sub_nonneg.mpr this
      refine ⟨le_max_left 0 _, max_le zero_le_one ?_⟩
      have : 0 ≤ ((e - today : ℤ) : ℝ) / H := div_nonneg hd hH.le
      linarith
    exact list_mean_mem_unit _ hmem
  · intro rv up hrv hup
    rw [compute_flavor_affinity_eq_spec]
    exact spec_cosine_similarity_bounds _ _
      (fun i => getD_half_nonneg rv hrv _) (fun i => getD_half_nonneg up hup _)
  · intro s u f c
    unfold compute_relevance_score
    have h0 : (0 : ℝ) ≤ min 1 (max 0 (s.WEIGHT_EXPIRY * u + s.WEIGHT_FLAVOR * f
        + s.WEIGHT_FAMILIAR * (if c then (1 : ℝ) else 0.2))) :=
      le_min zero_le_one (le_max_left 0 _)
    have h1 : min 1 (max 0 (s.WEIGHT_EXPIRY * u + s.WEIGHT_FLAVOR * f
        + s.WEIGHT_FAMILIAR * (if c then (1 : ℝ) else 0.2))) ≤ 1 :=
      min_le_left 1 _
    constructor
    · calc (0 : ℝ) = round3 0 := round3_zero.symm
        _ ≤ _ := round3_mono h0
    · calc round3 _ ≤ round3 1 := round3_mono h1
        _ = 1 := round3_one

/-- Claim C2 (witness): concrete in-range evaluations — a fresh item three
days from expiry, an all-ones flavor pair, and default-weight scores. -/
theorem c2_bounded_outputs_witness :
    ((0 : ℝ) < 7)
    ∧ (0 ≤ compute_expiry_urgency ["milk"] inv_fresh 0 7
        ∧ compute_expiry_urgency ["milk"] inv_fresh 0 7 ≤ 1)
    ∧ (0 ≤ compute_flavor_affinity (fun _ => some 1) (fun _ => some 1)
        ∧ compute_flavor_affinity (fun _ => some 1) (fun _ => some 1) ≤ 1)
    ∧ (0 ≤ compute_relevance_score defaultSettings 2 3 false
        ∧ compute_relevance_score defaultSettings 2 3 false ≤ 1) :=
  ⟨by norm_num,
    c2_bounded_outputs.1 ["milk"] inv_fresh 0 7 (by norm_num)
      (by
        intro i e h
        by_cases hi : i = "milk"
        · simp [inv_fresh, hi] at h
          omega
        · simp [inv_fresh, hi] at h),
    c2_bounded_outputs.2.1 (fun _ => some 1) (fun _ => some 1)
      (by intro a x h; simp at h; subst h; norm_num)
      (by intro a x h; simp at h; subst h; norm_num),
    c2_bounded_outputs.2.2 defaultSettings 2 3 false⟩

/-! Claim C5: flavor affinity is cosine similarity. -/

/-- Claim C5 (confirmed): `compute_flavor_affinity` equals the cosine
similarity of the two six-axis vectors (missing axes defaulting to `0.5`,
zero-magnitude degenerating to `0.5`), and two identical all-`0.5` vectors
give affinity `1.0`. -/
theorem c5_cosine_affinity :
    (∀ rv up : String → Option ℝ,
      compute_flavor_affinity rv up = spec_cosine_similarity (vecOf rv) (vecOf up))
    ∧ compute_flavor_affinity (mkProfileDict none) (mkProfileDict none) = 1 := by
  refine ⟨fun rv up => compute_flavor_affinity_eq_spec rv up, ?_⟩
  show cosine_affinity [(1 : ℝ)/2, 1/2, 1/2, 1/2, 1/2, 1/2]
    [(1 : ℝ)/2, 1/2, 1/2, 1/2, 1/2, 1/2] = 1
  unfold cosine_affinity l2norm
  simp only [List.zipWith_cons_cons, List.zipWith_nil_left, List.map_cons,
    List.map_nil, List.sum_cons, List.sum_nil]
  rw [show ((1 : ℝ)/2) ^ 2 + (((1 : ℝ)/2) ^ 2 + (((1 : ℝ)/2) ^ 2 + (((1 : ℝ)/2) ^ 2
      + (((1 : ℝ)/2) ^ 2 + (((1 : ℝ)/2) ^ 2 + 0))))) = 3 / 2 by norm_num,
    Real.mul_self_sqrt (by norm_num : (0 : ℝ) ≤ 3 / 2)]
  rw [if_pos (by norm_num : (3 : ℝ) / 2 > 0)]
  norm_num

/-! Claim C9: urgent items. -/

/-- Claim C9 (code bug): an item expiring tomorrow (`quantity 1 > 0`, expiry
`today + 1`, within the claimed two-day window) is omitted by the code's
`_get_urgent_items`, whose upper filter bound is `today` instead of
`today + 2 days`; the spec-side filter includes it. -/
theorem c9_urgent_items_window :
    get_urgent_items 0 invTomorrow namesMilk = []
    ∧ spec_urgent_items 0 invTomorrow namesMilk
      = [{ ingredient_name := "Milk", days_remaining := 1, quantity := 1, unit := "l" }]
    ∧ ((0 : ℤ) ≤ 1 ∧ (1 : ℤ) ≤ 0 + 2 ∧ (0 : ℚ) < 1) :=
  ⟨rfl, rfl, by norm_num⟩

/-! Claim C8: fallback-adapter failure. -/

/-- Claim C8 (code bug): with tiers 1–4 empty and `include_tier5 = true` the
fallback triggers, and an adapter failure propagates out of `generate`
uncaught (the route maps it to an HTTP 500), instead of leaving tier 5 empty
with a successful response. -/
theorem c8_adapter_failure_aborts :
    generate snapAdapterDown 0 "u" 10 true = Except.error "adapter unavailable" := rfl

/-! Helper lemmas for the tier-5 fallback claim. -/

theorem except_bind_ok {α β ε : Type} (a : α) (f : α → Except ε β) :
    (Except.ok a >>= f) = f a := rfl

theorem except_bind_error {α β ε : Type} (e : ε) (f : α → Except ε β) :
    ((Except.error e : Except ε α) >>= f) = Except.error e := rfl

theorem except_pure {α ε : Type} (a : α) : (pure a : Except ε α) = Except.ok a := rfl

theorem except_map_ok {α β ε : Type} (f : α → β) (a : α) :
    Except.map f (Except.ok a : Except ε α) = Except.ok (f a) := rfl

theorem round3_third : round3 ((1 : ℝ) / 3) = 333 / 1000 := by
  unfold round3
  have h : round ((1000 : ℝ) * (1 / 3)) = 333 := by
    rw [round_eq]
    have hf : ⌊(1000 : ℝ) * (1 / 3) + 1 / 2⌋ = 333 := by
      apply Int.floor_eq_iff.mpr
      constructor
      · norm_num
      · norm_num
    exact hf
  rw [h]
  norm_num

theorem score_row_t5_eq {snap : Snapshot} {inv : String → Option ℤ}
    {prof : String → Option ℝ} {today : ℤ} {b b' : Buckets} {row : TierRow}
    (h : score_row snap inv prof today b row = Except.ok b')
    (h5 : row.tier ≠ some 5) : b'.t5 = b.t5 := by
  rcases htier : row.tier with _ | n
  · simp only [score_row, htier, Except.ok.injEq] at h
    rw [← h]
  · rcases haff : flavor_affinityE (row.flavor_vectors.getD []) prof with e | fa
    · simp only [score_row, htier, haff, except_bind_error] at h
      exact Except.noConfusion h
    · simp only [score_row, htier, haff, except_bind_ok] at h
      have hn5 : n ≠ 5 := fun hc => h5 (htier.trans (by rw [hc]))
      unfold Buckets.push at h
      rcases n with _ | _ | _ | _ | _ | _ | m
      · exact Except.noConfusion h
      · injection h with h2
        rw [← h2]
      · injection h with h2
        rw [← h2]
      · injection h with h2
        rw [← h2]
      · injection h with h2
        rw [← h2]
      · exact absurd rfl hn5
      · exact Except.noConfusion h

theorem score_rows_t5_eq (snap : Snapshot) (inv : String → Option ℤ)
    (prof : String → Option ℝ) (today : ℤ) :
    ∀ (rows : List TierRow) (b b' : Buckets),
      (∀ r ∈ rows, r.tier ≠ some 5) →
      rows.foldlM (score_row snap inv prof today) b = Except.ok b' →
      b'.t5 = b.t5 := by
  intro rows
  induction rows with
  | nil =>
    intro b b' _ h
    rw [List.foldlM_nil, except_pure] at h
    injection h with h2
    rw [← h2]
  | cons r rs ih =>
    intro b b' hall h
    rw [List.foldlM_cons] at h
    rcases hr : score_row snap inv prof today b r with e | b1
    · rw [hr, except_bind_error] at h
      exact Except.noConfusion h
    · rw [hr, except_bind_ok] at h
      rw [ih b1 b' (fun x hx => hall x (List.mem_cons_of_mem _ hx)) h,
        score_row_t5_eq hr (hall r (List.mem_cons_self _ _))]

/-! Claim C6: the tier-5 fallback. -/

/-- Claim C6 (counterexample): when the fallback fires with reported
similarity `1/3`, the produced tier-5 recipe carries
`relevance_score = flavor_affinity = 0.333 ≠ 1/3` — the code stores
`round(similarity, 3)`, not the similarity itself. -/
theorem c6_similarity_rounding_counterexample :
    (generate snapThirds 0 "u" 10 true).map
        (fun resp => (resp.tiers.t5.map ScoredRecipe.relevance_score,
          resp.tiers.t5.map ScoredRecipe.flavor_affinity))
      = Except.ok ([(333 : ℝ) / 1000], [(333 : ℝ) / 1000])
    ∧ ((333 : ℝ) / 1000 ≠ 1 / 3) := by
  constructor
  · have hgen : generate snapThirds 0 "u" 10 true = Except.ok respThirds := rfl
    rw [hgen, except_map_ok]
    simp only [respThirds, map_fallback_row, List.map_cons, List.map_nil,
      Option.getD_some, round3_third]
  · norm_num

/-- Claim C6 (amended): the fallback fires iff `include_tier5` is set and the
combined size of tiers 1–4 after sorting and truncation is under 5; it then
maps each adapter row (queried with the user's six-axis profile vector and
`max_per_tier` as cap) to a tier-5 recipe with
`relevance_score = flavor_affinity = round(similarity, 3)`,
`match_percentage = 0` and `is_comfort = false`; otherwise tier 5 stays
empty. -/
theorem c6_tier5_fallback (snap : Snapshot) (today : ℤ) (uid : String)
    (max_per_tier : ℕ) (include_tier5 : Bool) (buckets : Buckets)
    (frows : List FallbackRow)
    (hrows : snap.tierRows.foldlM
      (score_row snap (buildExpiryMap today snap.inventory)
        (mkProfileDict snap.profileRow) today) {} = Except.ok buckets)
    (htier : ∀ r ∈ snap.tierRows, r.tier ≠ some 5)
    (hadapter : snap.adapter
      (FLAVOR_AXES.map fun axis => ((mkProfileDict snap.profileRow) axis).getD (1 / 2))
      max_per_tier = Except.ok frows) :
    (generate snap today uid max_per_tier include_tier5).map (fun resp => resp.tiers.t5)
      = Except.ok
        (if include_tier5 = true
            ∧ (sort_buckets max_per_tier buckets).t1.length
              + (sort_buckets max_per_tier buckets).t2.length
              + (sort_buckets max_per_tier buckets).t3.length
              + (sort_buckets max_per_tier buckets).t4.length < 5
          then frows.map map_fallback_row
          else [])
    ∧ (∀ fr : FallbackRow, map_fallback_row fr =
        { recipe_id := fr.recipe_id, title := fr.title, tier := 5,
          relevance_score := round3 (fr.similarity.getD (1 / 2)),
          match_percentage := 0, missing_ingredients := [],
          expiry_urgency := 0,
          flavor_affinity := round3 (fr.similarity.getD (1 / 2)),
          is_comfort := false }) := by
  have ht5 : buckets.t5 = [] :=
    score_rows_t5_eq snap (buildExpiryMap today snap.inventory)
      (mkProfileDict snap.profileRow) today snap.tierRows {} buckets htier hrows
  refine ⟨?_, fun fr => rfl⟩
  simp only [generate]
  rw [hrows]
  simp only [except_bind_ok]
  by_cases hc : include_tier5 = true
      ∧ (sort_buckets max_per_tier buckets).t1.length
        + (sort_buckets max_per_tier buckets).t2.length
        + (sort_buckets max_per_tier buckets).t3.length
        + (sort_buckets max_per_tier buckets).t4.length < 5
  · rw [if_pos hc, if_pos hc]
    simp only [tier5_search]
    rw [hadapter]
    simp only [except_bind_ok, except_pure, except_map_ok]
  · rw [if_neg hc, if_neg hc]
    simp only [except_bind_ok, except_pure, except_map_ok]
    simp [sort_buckets, sort_and_cap, sort_desc, ht5]

/-- Claim C6 (witness): on a snapshot with no tier 1–4 candidates and an
adapter reporting similarity `0.7`, the fallback fires and tier 5 holds
exactly the mapped row. -/
theorem c6_tier5_fallback_witness :
    (generate snapStew 0 "u" 10 true).map (fun resp => resp.tiers.t5)
      = Except.ok
          [map_fallback_row { recipe_id := "r9", title := "Stew", similarity := some (7 / 10) }]
    ∧ map_fallback_row { recipe_id := "r9", title := "Stew", similarity := some (7 / 10) }
      = { recipe_id := "r9", title := "Stew", tier := 5,
          relevance_score := round3 ((7 : ℝ) / 10), match_percentage := 0,
          missing_ingredients := [], expiry_urgency := 0,
          flavor_affinity := round3 ((7 : ℝ) / 10), is_comfort := false } := by
  have h := c6_tier5_fallback snapStew 0 "u" 10 true {}
    [{ recipe_id := "r9", title := "Stew", similarity := some (7 / 10) }]
    rfl (by simp [snapStew]) rfl
  constructor
  · have h1 := h.1
    simpa [sort_buckets, sort_and_cap, sort_desc] using h1
  · exact h.2 { recipe_id := "r9", title := "Stew", similarity := some (7 / 10) }

/-! Claim C7: malformed recipe. -/

/-- Claim C7 (code bug): the scoring loop has no per-recipe exception
handling, so one malformed candidate (a non-numeric flavor-axis value) makes
the whole `generate` call raise — aborting the request — even though another
well-formed candidate was scored. -/
theorem c7_malformed_recipe_aborts :
    generate snapMalformed 0 "u" 10 true
      = Except.error "TypeError: non-numeric flavor value hot" := rfl

end IFridge
